import Mathlib

/-!
Verification of the prof-viewer deferred tile-fetch pipeline.

Shallow embedding of `src/timestamp.rs`, `src/deferred_data.rs`,
`src/http/fetch_native.rs` and `src/http/fetch_web.rs`.

Modelling conventions:
- Rust `i64` timestamps are modelled as `Int`; every operation the claims
  touch (`contains`, `overlaps`, `intersection`) uses only comparisons and
  `min`/`max`, which agree between `i64` and `Int` (no overflow is possible
  in those operations).
- Rust `f64` values inside `parse_timestamp` are modelled as exact decimal
  fractions `num / 10^denExp` (`DecValue`): the decimal literal grammar of
  `f64::from_str` is parsed exactly, unit scaling is exact multiplication,
  and the final `as i64` cast is truncation toward zero with saturation at
  the `i64` bounds, exactly as in Rust. On every input the claims exercise,
  the decimal value and its unit product are exactly representable in `f64`,
  so the exact model computes the same integer as the Rust code.
- Character classes: Rust `char::is_numeric`, `char::is_alphabetic`,
  `char::is_whitespace` and `str::to_lowercase` are modelled by their ASCII
  restrictions (`Char.isDigit`, `Char.isAlpha`, `Char.isWhitespace`,
  `Char.toLower`); all inputs in the claims are ASCII.
-/

namespace ProfViewer

/-- Rust `Timestamp(pub i64)`: nanoseconds since an arbitrary epoch.
The derived ordering on the wrapped integer is used throughout. -/
structure Timestamp where
  ns : Int
deriving DecidableEq, Repr

/-- Rust `Interval { start, stop }` with `stop` exclusive. -/
structure Interval where
  start : Timestamp
  stop : Timestamp
deriving DecidableEq, Repr

/-- Rust `Interval::new(start, stop)`. -/
def Interval.new (start stop : Timestamp) : Interval :=
  { start := start, stop := stop }

/-- Rust `Interval::duration_ns`: `self.stop.0 - self.start.0`. -/
def Interval.duration_ns (i : Interval) : Int :=
  i.stop.ns - i.start.ns

/-- Rust `Interval::contains`: `point >= self.start && point < self.stop`. -/
def Interval.contains (i : Interval) (point : Timestamp) : Bool :=
  decide (point.ns ≥ i.start.ns) && decide (point.ns < i.stop.ns)

/-- Rust `Interval::overlaps`:
`!(other.stop < self.start || other.start >= self.stop)`. -/
def Interval.overlaps (i other : Interval) : Bool :=
  !(decide (other.stop.ns < i.start.ns) || decide (other.start.ns ≥ i.stop.ns))

/-- Rust `Interval::intersection`: per-field max of starts, min of stops. -/
def Interval.intersection (i other : Interval) : Interval :=
  { start := ⟨max i.start.ns other.start.ns⟩
    stop := ⟨min i.stop.ns other.stop.ns⟩ }

/-- Rust `Interval::union`: per-field min of starts, max of stops. -/
def Interval.union (i other : Interval) : Interval :=
  { start := ⟨min i.start.ns other.start.ns⟩
    stop := ⟨max i.stop.ns other.stop.ns⟩ }

/-- C1: the code's `overlaps` is NOT symmetric: `[0,1)` and `[1,2)` touch at
the boundary, `Interval(0,1).overlaps(Interval(1,2))` is `false` but
`Interval(1,2).overlaps(Interval(0,1))` is `true`, because the first disjunct
`other.stop < self.start` is strict where the mirrored disjunct
`other.start >= self.stop` is not. With `stop` documented exclusive, the two
intervals share no point, so the `true` answer contradicts the code's own
half-open convention (as used by `contains`). -/
theorem overlaps_asymmetric_at_touching_intervals :
    Interval.overlaps (Interval.new ⟨0⟩ ⟨1⟩) (Interval.new ⟨1⟩ ⟨2⟩) = false ∧
    Interval.overlaps (Interval.new ⟨1⟩ ⟨2⟩) (Interval.new ⟨0⟩ ⟨1⟩) = true := by
  constructor <;> rfl

/-- C3 counterexample: `a = [0,1)` and `b = [1,2)` do not overlap
(`a.overlaps(b) = false`) yet `a.intersection(b) = [1,1)` has `stop = start`,
not `stop < start` as the claim states. -/
theorem intersection_of_touching_intervals_not_strict :
    Interval.overlaps (Interval.new ⟨0⟩ ⟨1⟩) (Interval.new ⟨1⟩ ⟨2⟩) = false ∧
    ¬((Interval.new ⟨0⟩ ⟨1⟩).intersection (Interval.new ⟨1⟩ ⟨2⟩)).stop.ns <
      ((Interval.new ⟨0⟩ ⟨1⟩).intersection (Interval.new ⟨1⟩ ⟨2⟩)).start.ns := by
  refine ⟨rfl, ?_⟩
  decide

/-- C3 amended: if `a.overlaps(b)` is `false` then `a.intersection(b)` has
`stop ≤ start` (the intersection contains no point); equality is reached
exactly when the intervals touch. -/
theorem no_overlap_intersection_stop_le_start (a b : Interval)
    (h : a.overlaps b = false) :
    (a.intersection b).stop.ns ≤ (a.intersection b).start.ns := by
  simp only [Interval.overlaps, Bool.not_eq_false', Bool.or_eq_true,
    decide_eq_true_eq] at h
  simp only [Interval.intersection]
  omega

/-- C3 amended, witness: `a = [0,2)`, `b = [5,6)`. -/
theorem no_overlap_intersection_stop_le_start_witness :
    ((Interval.new ⟨0⟩ ⟨2⟩).intersection (Interval.new ⟨5⟩ ⟨6⟩)).stop.ns ≤
      ((Interval.new ⟨0⟩ ⟨2⟩).intersection (Interval.new ⟨5⟩ ⟨6⟩)).start.ns :=
  no_overlap_intersection_stop_le_start (Interval.new ⟨0⟩ ⟨2⟩)
    (Interval.new ⟨5⟩ ⟨6⟩) (by rfl)

/-- C4 counterexample: at `t1 = t2 = 0` we have `t1 ≤ t2`, but
`Interval::new(t1, t2).contains(t1)` is `false` (the interval is empty), so
the claim's `contains(t1) = true` fails for `t1 = t2`. -/
theorem contains_start_fails_on_empty_interval :
    (0 : Int) ≤ 0 ∧ (Interval.new ⟨0⟩ ⟨0⟩).contains ⟨0⟩ = false := by
  constructor <;> decide

/-- C4 amended: for `t1 < t2` (strictly), `Interval::new(t1,t2).contains(t1)`
is `true` and `.contains(t2)` is `false`; and for every point `p`,
`contains(p)` holds iff `start ≤ p < stop` (half-open semantics). When
`t1 = t2` the interval is empty and contains neither endpoint. -/
theorem contains_half_open_boundary (t1 t2 : Int) (h : t1 < t2) :
    (Interval.new ⟨t1⟩ ⟨t2⟩).contains ⟨t1⟩ = true ∧
    (Interval.new ⟨t1⟩ ⟨t2⟩).contains ⟨t2⟩ = false ∧
    ∀ p : Int, (Interval.new ⟨t1⟩ ⟨t2⟩).contains ⟨p⟩ = true ↔ t1 ≤ p ∧ p < t2 := by
  refine ⟨?_, ?_, ?_⟩
  · simp only [Interval.contains, Interval.new, Bool.and_eq_true, decide_eq_true_eq]
    omega
  · simp only [Interval.contains, Interval.new, Bool.and_eq_false_iff,
      decide_eq_false_iff_not]
    omega
  · intro p
    simp only [Interval.contains, Interval.new, Bool.and_eq_true, decide_eq_true_eq]

/-- C4 amended, witness: `t1 = 0`, `t2 = 1`. -/
theorem contains_half_open_boundary_witness :
    (Interval.new ⟨0⟩ ⟨1⟩).contains ⟨0⟩ = true ∧
    (Interval.new ⟨0⟩ ⟨1⟩).contains ⟨1⟩ = false ∧
    ∀ p : Int, (Interval.new ⟨0⟩ ⟨1⟩).contains ⟨p⟩ = true ↔ 0 ≤ p ∧ p < 1 :=
  contains_half_open_boundary 0 1 (by decide)

/-- Rust `IntervalParseError`. -/
inductive IntervalParseError where
  | NoValue
  | InvalidValue
  | NoUnit
  | InvalidUnit
  | StartAfterStop
  | StartAfterEnd
  | StopBeforeStart
deriving DecidableEq, Repr

/-- Rust `str::split_whitespace`, accumulator form: split into the maximal
runs of non-whitespace characters, dropping all whitespace. -/
def splitWSAux : List Char → List Char → List (List Char)
  | [], acc => if acc.isEmpty then [] else [acc.reverse]
  | c :: cs, acc =>
    if c.isWhitespace then
      if acc.isEmpty then splitWSAux cs [] else acc.reverse :: splitWSAux cs []
    else splitWSAux cs (c :: acc)

/-- Rust `str::split_whitespace` as a list of tokens. -/
def splitWhitespace (cs : List Char) : List (List Char) :=
  splitWSAux cs []

/-- Rust `str::trim_end_matches` with a char-predicate pattern: drop the
longest suffix of characters satisfying `p`. -/
def dropEndWhile (p : Char → Bool) (cs : List Char) : List Char :=
  (cs.reverse.dropWhile p).reverse

/-- Leading decimal digits of a character list, with the remainder. -/
def takeDigits (cs : List Char) : List Char × List Char :=
  (cs.takeWhile Char.isDigit, cs.dropWhile Char.isDigit)

/-- Numeric value of a (most-significant-first) digit list. -/
def digitsToNat (ds : List Char) : Nat :=
  ds.foldl (fun n c => 10 * n + (c.toNat - '0'.toNat)) 0

/-- Exponent suffix of the `f64` literal grammar: either empty (exponent 0)
or `('e'|'E') ['+'|'-'] digits` consuming the whole rest. -/
def parseExpPart : List Char → Option Int
  | [] => some 0
  | c :: rest =>
    if c = 'e' ∨ c = 'E' then
      let (esgn, rest2) : Int × List Char :=
        match rest with
        | '+' :: r => (1, r)
        | '-' :: r => (-1, r)
        | _ => (1, rest)
      let (ds, rest3) := takeDigits rest2
      if ds.isEmpty ∨ ¬ rest3.isEmpty then none
      else some (esgn * (digitsToNat ds : Int))
    else none

/-- An exact decimal fraction `num / 10^denExp`, the value of an `f64`
decimal literal taken without rounding. -/
structure DecValue where
  num : Int
  denExp : Nat
deriving DecidableEq, Repr

/-- Build a `DecValue` from sign, mantissa digits, fractional length and
decimal exponent. -/
def DecValue.make (sgn : Int) (mantissa : Nat) (fracLen : Nat) (e : Int) : DecValue :=
  if 0 ≤ e then ⟨sgn * mantissa * (10 : Int) ^ e.toNat, fracLen⟩
  else ⟨sgn * mantissa, fracLen + (-e).toNat⟩

/-- Multiply a `DecValue` by a natural scale factor (exact). -/
def DecValue.scale (v : DecValue) (n : Nat) : DecValue :=
  ⟨v.num * n, v.denExp⟩

/-- Rust `f64::from_str` on the decimal grammar
`['+'|'-'] (digits ['.' digits*] | '.' digits) [exp]`, with the value taken
exactly. The `inf`/`nan` forms of `from_str` are omitted: in
`parse_timestamp` the parsed string has had every trailing alphabetic
character removed, so those forms can never reach the parser (both the model
and `f64::from_str` reject what remains of them). -/
def parseDecimal (cs : List Char) : Option DecValue :=
  let (sgn, cs1) : Int × List Char :=
    match cs with
    | '+' :: r => (1, r)
    | '-' :: r => (-1, r)
    | _ => (1, cs)
  let (ip, rest) := takeDigits cs1
  match rest with
  | '.' :: afterDot =>
    let (fp, rest2) := takeDigits afterDot
    if ip.isEmpty ∧ fp.isEmpty then none
    else
      match parseExpPart rest2 with
      | none => none
      | some e => some (DecValue.make sgn (digitsToNat (ip ++ fp)) fp.length e)
  | _ =>
    if ip.isEmpty then none
    else
      match parseExpPart rest with
      | none => none
      | some e => some (DecValue.make sgn (digitsToNat ip) 0 e)

/-- Smallest `i64` value. -/
def i64Min : Int := -(2 ^ 63)

/-- Largest `i64` value. -/
def i64Max : Int := 2 ^ 63 - 1

/-- Rust `f64 as i64`: truncate toward zero and saturate at the `i64`
bounds (both divisions below have non-negative operands, so the rounding
convention of `Int` division is immaterial). -/
def DecValue.asI64 (v : DecValue) : Int :=
  let d : Int := (10 : Int) ^ v.denExp
  let t : Int := if 0 ≤ v.num then v.num / d else -((-v.num) / d)
  max i64Min (min i64Max t)

/-- Rust `char::to_lowercase` restricted to ASCII, applied per character. -/
def toLowerStr (cs : List Char) : List Char :=
  cs.map Char.toLower

/-- Rust `Interval::parse_timestamp`, line for line:
take the first whitespace token (`NoValue` if none); `unit0` is the token
with its longest numeric-or-dot leading run removed; `value` is the token
with its longest alphabetic trailing run removed; empty `value` is `NoValue`;
unparsable `value` is `InvalidValue`; an empty `unit0` consumes the next
token as the unit (`NoUnit` if absent); any further token is `InvalidValue`;
the lowercased unit scales the value (`ns`, `us`, `ms`, `s`, else
`InvalidUnit`) and the product is cast to `i64`. -/
def Interval.parse_timestamp (s : String) : Except IntervalParseError Timestamp :=
  match splitWhitespace s.toList with
  | [] => .error .NoValue
  | firstTok :: rest =>
    if (dropEndWhile Char.isAlpha firstTok).isEmpty then .error .NoValue
    else
      match parseDecimal (dropEndWhile Char.isAlpha firstTok) with
      | none => .error .InvalidValue
      | some v =>
        match (if (firstTok.dropWhile (fun c => c.isDigit || c = '.')).isEmpty then
                 match rest with
                 | [] => none
                 | u :: rest2 => some (u, rest2)
               else some (firstTok.dropWhile (fun c => c.isDigit || c = '.'), rest) :
               Option (List Char × List (List Char))) with
        | none => .error .NoUnit
        | some (unit1, rest2) =>
          if ¬ rest2.isEmpty then .error .InvalidValue
          else
            if toLowerStr unit1 = [ 'n', 's' ] then .ok ⟨v.asI64⟩
            else if toLowerStr unit1 = [ 'u', 's' ] then .ok ⟨(v.scale 1000).asI64⟩
            else if toLowerStr unit1 = [ 'm', 's' ] then .ok ⟨(v.scale 1000000).asI64⟩
            else if toLowerStr unit1 = [ 's' ] then .ok ⟨(v.scale 1000000000).asI64⟩
            else .error .InvalidUnit

/-- C5: `parse_timestamp` classifies malformed inputs exactly as specified:
`"500.0"` is `NoUnit`; `"ms"` (a unit with no leading digits) is `NoValue`,
not `InvalidValue`; `"500.0 foo"` is `InvalidUnit`; `"500.0.0 ms"` is
`InvalidValue`; `"500.0 ms asdf"` (trailing token) is `InvalidValue`; the
empty input is `NoValue`. -/
theorem parse_timestamp_error_classification :
    Interval.parse_timestamp "500.0" = .error .NoUnit ∧
    Interval.parse_timestamp "ms" = .error .NoValue ∧
    Interval.parse_timestamp "500.0 foo" = .error .InvalidUnit ∧
    Interval.parse_timestamp "500.0.0 ms" = .error .InvalidValue ∧
    Interval.parse_timestamp "500.0 ms asdf" = .error .InvalidValue ∧
    Interval.parse_timestamp "" = .error .NoValue :=
  ⟨rfl, rfl, rfl, rfl, rfl, rfl⟩

/-- C6: `parse_timestamp` scales the parsed value by the unit
(`us` = 1e3 ns, `ms` = 1e6 ns, `s` = 1e9 ns), truncating toward zero on the
cast to `i64`: `"500.0 ms"` is `Timestamp(500_000_000)`, `"500.0 us"` is
`Timestamp(500_000)`, `"500.0 ns"` is `Timestamp(500)` and `"500.0 s"` is
`Timestamp(500_000_000_000)`. -/
theorem parse_timestamp_unit_scaling :
    Interval.parse_timestamp "500.0 ms" = .ok ⟨500000000⟩ ∧
    Interval.parse_timestamp "500.0 us" = .ok ⟨500000⟩ ∧
    Interval.parse_timestamp "500.0 ns" = .ok ⟨500⟩ ∧
    Interval.parse_timestamp "500.0 s" = .ok ⟨500000000000⟩ :=
  ⟨rfl, rfl, rfl, rfl⟩

/-- C9: `parse_timestamp` is total: on every input string it returns either
`Ok` or a typed `IntervalParseError`; there is no panicking path in the
function (every fallible step is handled with `ok_or`/`map_err`), and the
errors it can actually produce form the closed set
`NoValue, InvalidValue, NoUnit, InvalidUnit`. -/
theorem parse_timestamp_total (s : String) :
    match Interval.parse_timestamp s with
    | .ok _ => True
    | .error e =>
      e = .NoValue ∨ e = .InvalidValue ∨ e = .NoUnit ∨ e = .InvalidUnit := by
  cases hp : Interval.parse_timestamp s with
  | ok t => exact trivial
  | error e =>
    show e = .NoValue ∨ e = .InvalidValue ∨ e = .NoUnit ∨ e = .InvalidUnit
    unfold Interval.parse_timestamp at hp
    (repeat' split at hp) <;> try simp_all

/-- Modelled from the spec: the synchronous data-source capability wrapped
by `DeferredDataSourceWrapper`. Its trait lives in the crate's `data` module
(not under `src/`); the spec (§6) pins its operations:
`fetch_info() -> DataSourceInfo`, `fetch_tile_sets() -> tile-set catalog`,
and per-kind `fetch_*_tile(entry, tile) -> payload`. The payload, entry and
tile types are opaque to this core, so they are type parameters
(`E` = EntryID, `T` = TileID, `ST`/`SL`/`SM` = the three tile payloads,
`I` = DataSourceInfo), and the capability is a record of pure functions. -/
structure DataSource (E T ST SL SM I : Type) where
  fetch_info : I
  fetch_tile_sets : List (List T)
  fetch_summary_tile : E → T → ST
  fetch_slot_tile : E → T → SL
  fetch_slot_meta_tile : E → T → SM

/-- Rust `DeferredDataSourceWrapper`: the wrapped synchronous source plus
one buffer per tile kind. -/
structure DeferredDataSourceWrapper (E T ST SL SM I : Type) where
  data_source : DataSource E T ST SL SM I
  summary_tiles : List ST
  slot_tiles : List SL
  slot_meta_tiles : List SM

namespace DeferredDataSourceWrapper

variable {E T ST SL SM I : Type}

/-- Rust `DeferredDataSourceWrapper::new`: empty buffers. -/
def new (data_source : DataSource E T ST SL SM I) :
    DeferredDataSourceWrapper E T ST SL SM I :=
  { data_source, summary_tiles := [], slot_tiles := [], slot_meta_tiles := [] }

/-- Rust `fetch_info(&mut self) {}`: a no-op. -/
def fetch_info (w : DeferredDataSourceWrapper E T ST SL SM I) :
    DeferredDataSourceWrapper E T ST SL SM I :=
  w

/-- Rust `get_info`: `Some(self.data_source.fetch_info())`, paired with the
unchanged state. -/
def get_info (w : DeferredDataSourceWrapper E T ST SL SM I) :
    Option I × DeferredDataSourceWrapper E T ST SL SM I :=
  (some w.data_source.fetch_info, w)

/-- Rust `fetch_tile_sets(&mut self) {}`: a no-op. -/
def fetch_tile_sets (w : DeferredDataSourceWrapper E T ST SL SM I) :
    DeferredDataSourceWrapper E T ST SL SM I :=
  w

/-- Rust `get_tile_sets`: `Some(self.data_source.fetch_tile_sets())`. -/
def get_tile_sets (w : DeferredDataSourceWrapper E T ST SL SM I) :
    Option (List (List T)) × DeferredDataSourceWrapper E T ST SL SM I :=
  (some w.data_source.fetch_tile_sets, w)

/-- Rust `fetch_summary_tile`: push the synchronously computed tile onto the
summary buffer. -/
def fetch_summary_tile (w : DeferredDataSourceWrapper E T ST SL SM I)
    (entry_id : E) (tile_id : T) : DeferredDataSourceWrapper E T ST SL SM I :=
  { w with summary_tiles :=
      w.summary_tiles ++ [w.data_source.fetch_summary_tile entry_id tile_id] }

/-- Rust `get_summary_tiles`: `std::mem::take(&mut self.summary_tiles)` —
return the buffer and leave it empty. -/
def get_summary_tiles (w : DeferredDataSourceWrapper E T ST SL SM I) :
    List ST × DeferredDataSourceWrapper E T ST SL SM I :=
  (w.summary_tiles, { w with summary_tiles := [] })

/-- Rust `fetch_slot_tile`: push onto the slot buffer. -/
def fetch_slot_tile (w : DeferredDataSourceWrapper E T ST SL SM I)
    (entry_id : E) (tile_id : T) : DeferredDataSourceWrapper E T ST SL SM I :=
  { w with slot_tiles :=
      w.slot_tiles ++ [w.data_source.fetch_slot_tile entry_id tile_id] }

/-- Rust `get_slot_tiles`: take the slot buffer. -/
def get_slot_tiles (w : DeferredDataSourceWrapper E T ST SL SM I) :
    List SL × DeferredDataSourceWrapper E T ST SL SM I :=
  (w.slot_tiles, { w with slot_tiles := [] })

/-- Rust `fetch_slot_meta_tile`: push onto the slot-meta buffer. -/
def fetch_slot_meta_tile (w : DeferredDataSourceWrapper E T ST SL SM I)
    (entry_id : E) (tile_id : T) : DeferredDataSourceWrapper E T ST SL SM I :=
  { w with slot_meta_tiles :=
      w.slot_meta_tiles ++ [w.data_source.fetch_slot_meta_tile entry_id tile_id] }

/-- Rust `get_slot_meta_tiles`: take the slot-meta buffer. -/
def get_slot_meta_tiles (w : DeferredDataSourceWrapper E T ST SL SM I) :
    List SM × DeferredDataSourceWrapper E T ST SL SM I :=
  (w.slot_meta_tiles, { w with slot_meta_tiles := [] })

end DeferredDataSourceWrapper

/-- Rust `DataSourceResponse { body: String }` from `http/fetch.rs`. -/
structure DataSourceResponse where
  body : String
deriving DecidableEq, Repr

/-- Outcome of one HTTP transaction as seen inside a backend's worker or
task: the send either fails, or yields a response whose body read either
fails or yields text. -/
inductive SendResult where
  | sendError (e : String)
  | response (textResult : Except String String)
deriving Repr

/-- What the backend's worker/task does with the completion callback: either
invokes it once with a value, or panics with a message (so the callback is
never invoked). -/
inductive FetchOutcome (α : Type) where
  | callback (r : α)
  | panicked (msg : String)
deriving Repr

/-- Rust `http/fetch_native.rs::fetch`, body of the spawned worker:
`request.send().expect("test").text().expect("unable to get text")`, then
`on_done(Ok(DataSourceResponse { body: text }))`. A send failure or body
read failure hits `.expect(..)` and panics the worker; `on_done` is only
ever invoked with `Ok`. -/
def fetchNative (r : SendResult) : FetchOutcome (Except String DataSourceResponse) :=
  match r with
  | .sendError _ => .panicked "test"
  | .response (.error _) => .panicked "unable to get text"
  | .response (.ok text) => .callback (.ok ⟨text⟩)

/-- Rust `http/fetch_web.rs::fetch`, body of the cooperative task:
`request.send().await.expect("send failed").text().await.expect("unable to
get text")`, then `on_done(Ok(DataSourceResponse { body: text }))`. Same
shape as the native backend: failures panic instead of reaching the
callback. -/
def fetchWeb (r : SendResult) : FetchOutcome (Except String DataSourceResponse) :=
  match r with
  | .sendError _ => .panicked "send failed"
  | .response (.error _) => .panicked "unable to get text"
  | .response (.ok text) => .callback (.ok ⟨text⟩)

/-- C7: on the Local Wrapper, draining any of the three tile kinds from an
empty buffer yields an empty batch; after one `fetch_summary_tile(e, t)` the
first `get_summary_tiles` returns exactly that one tile and empties the
buffer, so an immediately following call returns an empty batch. -/
theorem wrapper_drain_once_then_empty {E T ST SL SM I : Type}
    (w : DeferredDataSourceWrapper E T ST SL SM I) (e : E) (t : T)
    (hs : w.summary_tiles = []) (hl : w.slot_tiles = [])
    (hm : w.slot_meta_tiles = []) :
    w.get_summary_tiles.1 = [] ∧
    w.get_slot_tiles.1 = [] ∧
    w.get_slot_meta_tiles.1 = [] ∧
    (w.fetch_summary_tile e t).get_summary_tiles.1 =
      [w.data_source.fetch_summary_tile e t] ∧
    (w.fetch_summary_tile e t).get_summary_tiles.2.get_summary_tiles.1 = [] := by
  refine ⟨hs, hl, hm, ?_, rfl⟩
  simp [DeferredDataSourceWrapper.get_summary_tiles,
    DeferredDataSourceWrapper.fetch_summary_tile, hs]

/-- A concrete synchronous data source over `Nat` identifiers and payloads,
used to instantiate the wrapper theorems. -/
def dsNat : DataSource Nat Nat Nat Nat Nat Nat :=
  { fetch_info := 0
    fetch_tile_sets := [[1, 2], [3]]
    fetch_summary_tile := fun e t => e + t
    fetch_slot_tile := fun e t => e * t
    fetch_slot_meta_tile := fun _ _ => 7 }

/-- C7 witness: the fresh wrapper over `dsNat`, fetching the tile `(2, 3)`. -/
theorem wrapper_drain_once_then_empty_witness :
    (DeferredDataSourceWrapper.new dsNat).get_summary_tiles.1 = [] ∧
    (DeferredDataSourceWrapper.new dsNat).get_slot_tiles.1 = [] ∧
    (DeferredDataSourceWrapper.new dsNat).get_slot_meta_tiles.1 = [] ∧
    ((DeferredDataSourceWrapper.new dsNat).fetch_summary_tile 2
        3).get_summary_tiles.1 =
      [dsNat.fetch_summary_tile 2 3] ∧
    ((DeferredDataSourceWrapper.new dsNat).fetch_summary_tile 2
        3).get_summary_tiles.2.get_summary_tiles.1 = [] :=
  wrapper_drain_once_then_empty (DeferredDataSourceWrapper.new dsNat) 2 3
    rfl rfl rfl

/-- C8: on the Local Wrapper, `fetch_info` and `fetch_tile_sets` are no-ops
(the state is returned unchanged), and `get_info` / `get_tile_sets` always
return `Some` of a value freshly computed from the underlying synchronous
source, without consuming any wrapper state — so repeated calls keep
returning the same value. -/
theorem wrapper_info_always_ready {E T ST SL SM I : Type}
    (w : DeferredDataSourceWrapper E T ST SL SM I) :
    w.fetch_info = w ∧
    w.fetch_tile_sets = w ∧
    w.get_info = (some w.data_source.fetch_info, w) ∧
    w.get_tile_sets = (some w.data_source.fetch_tile_sets, w) :=
  ⟨rfl, rfl, rfl, rfl⟩

/-- C10: each per-kind operation of the Local Wrapper touches only its own
buffer: every `fetch_*_tile` appends the computed tile to its own kind's
buffer and leaves the other two buffers and the data source unchanged, and
every `get_*_tiles` empties only its own kind's buffer. -/
theorem wrapper_per_kind_frame {E T ST SL SM I : Type}
    (w : DeferredDataSourceWrapper E T ST SL SM I) (e : E) (t : T) :
    ((w.fetch_summary_tile e t).data_source = w.data_source ∧
      (w.fetch_summary_tile e t).summary_tiles =
        w.summary_tiles ++ [w.data_source.fetch_summary_tile e t] ∧
      (w.fetch_summary_tile e t).slot_tiles = w.slot_tiles ∧
      (w.fetch_summary_tile e t).slot_meta_tiles = w.slot_meta_tiles) ∧
    ((w.fetch_slot_tile e t).data_source = w.data_source ∧
      (w.fetch_slot_tile e t).slot_tiles =
        w.slot_tiles ++ [w.data_source.fetch_slot_tile e t] ∧
      (w.fetch_slot_tile e t).summary_tiles = w.summary_tiles ∧
      (w.fetch_slot_tile e t).slot_meta_tiles = w.slot_meta_tiles) ∧
    ((w.fetch_slot_meta_tile e t).data_source = w.data_source ∧
      (w.fetch_slot_meta_tile e t).slot_meta_tiles =
        w.slot_meta_tiles ++ [w.data_source.fetch_slot_meta_tile e t] ∧
      (w.fetch_slot_meta_tile e t).summary_tiles = w.summary_tiles ∧
      (w.fetch_slot_meta_tile e t).slot_tiles = w.slot_tiles) ∧
    (w.get_summary_tiles.2 = { w with summary_tiles := [] } ∧
      w.get_slot_tiles.2 = { w with slot_tiles := [] } ∧
      w.get_slot_meta_tiles.2 = { w with slot_meta_tiles := [] }) :=
  ⟨⟨rfl, rfl, rfl, rfl⟩, ⟨rfl, rfl, rfl, rfl⟩, ⟨rfl, rfl, rfl, rfl⟩,
    ⟨rfl, rfl, rfl⟩⟩

/-- C2: both transport backends violate the exactly-once callback contract.
When the send fails, the native backend's worker panics at
`.expect("test")` and the web backend's task panics at
`.expect("send failed")`; when the body read fails, both panic at
`.expect("unable to get text")`. In every failure case the callback is
invoked zero times and the panic propagates past the caller; moreover
neither backend ever invokes the callback with an error value at all. -/
theorem fetch_backends_panic_instead_of_error_callback :
    fetchNative (.sendError "connection refused") = .panicked "test" ∧
    fetchWeb (.sendError "connection refused") = .panicked "send failed" ∧
    fetchNative (.response (.error "read aborted")) =
      .panicked "unable to get text" ∧
    fetchWeb (.response (.error "read aborted")) =
      .panicked "unable to get text" ∧
    ∀ (r : SendResult) (err : String),
      fetchNative r ≠ .callback (.error err) ∧
      fetchWeb r ≠ .callback (.error err) := by
  refine ⟨rfl, rfl, rfl, rfl, ?_⟩
  intro r err
  rcases r with e | tr
  · exact ⟨fun h => by simp [fetchNative] at h, fun h => by simp [fetchWeb] at h⟩
  · rcases tr with e | txt
    · exact ⟨fun h => by simp [fetchNative] at h, fun h => by simp [fetchWeb] at h⟩
    · exact ⟨fun h => by simp [fetchNative] at h, fun h => by simp [fetchWeb] at h⟩

end ProfViewer
